import Mathlib

/-!
Verification development for the Universal Website Scraper backend
(`src/backend/`): a shallow embedding in Lean 4 of the data model
(`backend/models.py`), the URL validator and robots gate
(`backend/scraper/utils.py`), the static fetcher (`backend/scraper/static.py`),
the HTML parser (`backend/scraper/parser.py`), the interaction orchestrator
(`backend/scraper/interactions.py`), and the scrape orchestrator
(`backend/scraper/scraper.py`), together with theorems settling the spec's
claims about them.

Conventions of the embedding:
- Pure Python functions become Lean functions with the source's names.
- `async` I/O calls (HTTP fetches, the Playwright page) become explicit
  outcome parameters or small oracle state machines: the embedded function
  receives the outcome of each external call and mirrors the source's
  control flow on it.
- Python exceptions become `Except` values; a caller's `try/except` becomes
  a `match` on the `Except`.
- Strings are Lean `String`s; Python string slicing by characters matches
  `String.take`/`String.drop`.
-/

namespace Scraper

/-! ## Python string primitives used by the source -/

/-- Whitespace recognised by Python `str.strip` / `str.split` / `re \s`
(ASCII subset: space, tab, newline, carriage return, vertical tab, form feed). -/
def isPyWs (c : Char) : Bool :=
  c = ' ' || c = '\t' || c = '\n' || c = '\r' || c.toNat = 11 || c.toNat = 12

/-- Python `str.strip()`: drop leading and trailing whitespace. -/
def pyStrip (s : String) : String :=
  String.mk (((s.data.dropWhile isPyWs).reverse.dropWhile isPyWs).reverse)

/-- Python slicing `s[:n]` (first `n` characters).  Character-list based
so that concrete runs reduce inside the kernel. -/
def pyTake (s : String) (n : Nat) : String :=
  String.mk (s.data.take n)

/-- Python slicing `s[n:]`. -/
def pyDrop (s : String) (n : Nat) : String :=
  String.mk (s.data.drop n)

/-- Python `s.startswith(pre)`. -/
def pyStartswith (s pre : String) : Bool :=
  s.data.take pre.data.length == pre.data

/-- Python `str.lower()` (ASCII letters). -/
def pyLower (s : String) : String :=
  String.mk (s.data.map Char.toLower)

/-- Python `sep.join(parts)`. -/
def strJoin (sep : String) : List String → String
  | [] => ""
  | [x] => x
  | x :: y :: rest => x ++ sep ++ strJoin sep (y :: rest)

/-- Core loop of `re.sub(r"\s+", " ", text)`: replace each maximal
whitespace run with a single space.  The flag records whether the previous
character belonged to a run already replaced. -/
def collapseWsGo : Bool → List Char → List Char
  | _, [] => []
  | prevWs, c :: rest =>
    if isPyWs c then
      if prevWs then collapseWsGo true rest
      else ' ' :: collapseWsGo true rest
    else c :: collapseWsGo false rest

/-- Python `re.sub(r"\s+", " ", text)`. -/
def collapseWs (s : String) : String :=
  String.mk (collapseWsGo false s.data)

/-- Worker of `pySplitWs`: accumulate the current word (reversed) while
scanning. -/
def splitWsGo : List Char → List Char → List String
  | acc, [] => if acc.isEmpty then [] else [String.mk acc.reverse]
  | acc, c :: rest =>
    if isPyWs c then
      if acc.isEmpty then splitWsGo [] rest
      else String.mk acc.reverse :: splitWsGo [] rest
    else splitWsGo (c :: acc) rest

/-- Python `text.split()` (no argument): split on whitespace runs,
dropping empty pieces. -/
def pySplitWs (s : String) : List String :=
  splitWsGo [] s.data

/-- Substring scan at each suffix position. -/
def containsSubGo (pat : List Char) : List Char → Bool
  | [] => false
  | c :: rest => (c :: rest).take pat.length == pat || containsSubGo pat rest

/-- Python `pat in s` for strings (substring test). -/
def strContains (s pat : String) : Bool :=
  if pat = "" then true else containsSubGo pat.data s.data

/-- Python `str.capitalize()`: first character upper-cased, rest lower-cased. -/
def pyCapitalize (s : String) : String :=
  match s.data with
  | [] => ""
  | c :: cs => String.mk (c.toUpper :: cs.map Char.toLower)

/-! ## Data model (`backend/models.py`) -/

/-- `models.Meta`. -/
structure Meta where
  title : String
  description : String
  language : String
  canonical : Option String := none
  strategy : Option String := none
deriving Repr, DecidableEq, Inhabited

/-- `models.LinkItem`. -/
structure LinkItem where
  text : String
  href : String
deriving Repr, DecidableEq, Inhabited

/-- `models.ImageItem`. -/
structure ImageItem where
  src : String
  alt : String
deriving Repr, DecidableEq, Inhabited

/-- One table as built by `parser.extract_tables`
(`{"headers": [...], "rows": [...]}`). -/
structure TableData where
  headers : List String
  rows : List (List String)
deriving Repr, DecidableEq, Inhabited

/-- `models.Content`. -/
structure Content where
  headings : List String := []
  text : String := ""
  links : List LinkItem := []
  images : List ImageItem := []
  lists : List (List String) := []
  tables : List TableData := []
deriving Repr, DecidableEq, Inhabited

/-- `models.Section`. -/
structure Section where
  id : String
  type : String
  label : String
  sourceUrl : String
  content : Content
  rawHtml : String
  truncated : Bool
deriving Repr, DecidableEq, Inhabited

/-- `models.Interactions`. -/
structure Interactions where
  clicks : List String := []
  scrolls : Nat := 0
  pages : List String := []
deriving Repr, DecidableEq, Inhabited

/-- `models.ScrapeError`. -/
structure ScrapeError where
  message : String
  phase : String
deriving Repr, DecidableEq, Inhabited

/-- `models.ScrapeResult`. -/
structure ScrapeResult where
  url : String
  scrapedAt : String
  meta : Meta
  sections : List Section := []
  interactions : Interactions := {}
  errors : List ScrapeError := []
deriving Repr, DecidableEq, Inhabited

/-! ## Configuration constants (`backend/config.py`) -/

def MAX_RAW_HTML_LENGTH : Nat := 5000
def MAX_INTERACTION_DEPTH : Nat := 3
def MAX_URL_LENGTH : Nat := 2048
def MAX_TABS_TO_CLICK : Nat := 5
def MAX_TEXT_PREVIEW_LENGTH : Nat := 50

def TAB_SELECTORS : List String :=
  ["[role='tab']", ".tab", "[class*='tab']", "button[aria-selected]"]

def LOAD_MORE_SELECTORS : List String :=
  ["button:has-text('Load more')", "button:has-text('Show more')",
   "a:has-text('Load more')", "[class*='load-more']", "[class*='show-more']"]

def PAGINATION_SELECTORS : List String :=
  ["a:has-text('Next')", "button:has-text('Next')", "[rel='next']",
   "[class*='next']", "[class*='pagination'] a"]

/-- `config.SECTION_TYPE_KEYWORDS`, as an ordered association list
(Python dicts iterate in insertion order). -/
def SECTION_TYPE_KEYWORDS : List (String × List String) :=
  [("hero", ["hero", "banner", "jumbotron", "splash"]),
   ("nav", ["nav", "navigation", "menu"]),
   ("footer", ["footer", "copyright"]),
   ("pricing", ["pricing", "price", "plan"]),
   ("faq", ["faq", "question", "answer", "accordion"]),
   ("list", ["list", "items"]),
   ("grid", ["grid", "gallery", "cards"])]

/-! ## URL validator (`utils.validate_url`)

`urllib.parse.urlparse` is modelled to CPython 3.11 semantics on the
inputs `validate_url` feeds it (ASCII strings passing the
`startswith(("http://", "https://"))` check): `urlsplit` first removes
every tab, carriage return and newline from the URL, extracts the
authority between the `//` and the first `/`, `?` or `#`, raises
`Invalid IPv6 URL` on a square bracket without its partner, and for a
bracketed host raises unless the host is a valid IPv6 address (with an
optional non-empty zone id after `%`) or an IPvFuture literal
`v<hex>+.<suffix>`; a bracketed IPv4 address also raises.  The NFKC
`_checknetloc` check is a no-op for ASCII authorities and is not
modelled. -/

/-- Split a character list on a separator, keeping empty pieces
(Python `str.split(sep)`). -/
def splitOnChar (sep : Char) : List Char → List (List Char)
  | [] => [[]]
  | c :: rest =>
    if c = sep then [] :: splitOnChar sep rest
    else
      match splitOnChar sep rest with
      | [] => [[c]]
      | h :: t => (c :: h) :: t

/-- Hexadecimal digit (`ipaddress._IP_DIGITS` superset check). -/
def isHexDigitCh (c : Char) : Bool :=
  c.isDigit || ('a' ≤ c && c ≤ 'f') || ('A' ≤ c && c ≤ 'F')

/-- Decimal digit run to a number. -/
def digitsToNat (l : List Char) : Nat :=
  l.foldl (fun n c => n * 10 + (c.toNat - 48)) 0

/-- `ipaddress.IPv4Address._parse_octet` (3.11): non-empty, ASCII digits
only, at most 3 characters, no leading zero except `"0"` itself, value at
most 255. -/
def validOctet (p : List Char) : Bool :=
  !p.isEmpty && p.all Char.isDigit && decide (p.length ≤ 3)
    && (p == ['0'] || p.head? != some '0') && decide (digitsToNat p ≤ 255)

/-- `ipaddress.IPv4Address` parsing: exactly four valid octets. -/
def validIPv4 (l : List Char) : Bool :=
  let parts := splitOnChar '.' l
  parts.length == 4 && parts.all validOctet

/-- `ipaddress.IPv6Address._parse_hextet`: non-empty, at most 4 hex
digits. -/
def validHextet (p : List Char) : Bool :=
  !p.isEmpty && decide (p.length ≤ 4) && p.all isHexDigitCh

/-- The group check of `ipaddress.IPv6Address._ip_int_from_string` after
any embedded IPv4 suffix has been replaced by two placeholder groups: at
most 9 parts; without an inner empty part, exactly 8 valid hextets; with
exactly one inner empty part (the `::`), a leading (resp. trailing) empty
part is only permitted when the `::` is at the very start (resp. end),
the parsed groups number at most 7, and each parsed group is a valid
hextet. -/
def ipv6Groups (parts : List (List Char)) : Bool :=
  if parts.length > 9 then false
  else
    let n := parts.length
    let inner := (List.range n).filter
      (fun i => decide (0 < i) && decide (i < n - 1) && (parts.getD i []).isEmpty)
    match inner with
    | [] => n == 8 && parts.all validHextet
    | [i] =>
      let headEmpty := (parts.getD 0 []).isEmpty
      let lastEmpty := (parts.getD (n - 1) []).isEmpty
      let parts_hi := if headEmpty then i - 1 else i
      let parts_lo := if lastEmpty then n - i - 2 else n - i - 1
      (if headEmpty then i == 1 else true)
        && (if lastEmpty then i == n - 2 else true)
        && decide (parts_hi + parts_lo ≤ 7)
        && (parts.take parts_hi).all validHextet
        && (parts.drop (n - parts_lo)).all validHextet
    | _ => false

/-- `ipaddress.IPv6Address._ip_int_from_string` without a zone id: split
on `:`, at least 3 parts, an embedded IPv4 address allowed as the last
part (counting as two groups), then the group check. -/
def validIPv6NoScope (l : List Char) : Bool :=
  let parts := splitOnChar ':' l
  if parts.length < 3 then false
  else
    let lastPart := parts.getLast?.getD []
    if lastPart.contains '.' then
      validIPv4 lastPart && ipv6Groups (parts.dropLast ++ [['0'], ['0']])
    else ipv6Groups parts

/-- `ipaddress.IPv6Address` parsing including `_split_scope_id`: an
optional zone id after the first `%`, which must be non-empty and contain
no further `%`. -/
def validIPv6 (l : List Char) : Bool :=
  if l.contains '%' then
    let addr := l.takeWhile (· ≠ '%')
    let scope := (l.dropWhile (· ≠ '%')).tail
    !scope.isEmpty && !scope.contains '%' && validIPv6NoScope addr
  else validIPv6NoScope l

/-- `urllib.parse._check_bracketed_host` (3.11): a host starting with `v`
must match `v[0-9a-fA-F]+\..+` (IPvFuture); otherwise
`ipaddress.ip_address` must parse it, and a parse as IPv4 raises
("An IPv4 address cannot be in brackets"). -/
def bracketed_host_ok (host : List Char) : Bool :=
  if host.head? == some 'v' then
    let rest := host.tail
    let hexRun := rest.takeWhile isHexDigitCh
    let after := rest.drop hexRun.length
    !hexRun.isEmpty && after.head? == some '.' && !after.tail.isEmpty
  else if validIPv4 host then false
  else validIPv6 host

/-- Model of `urllib.parse.urlparse(url).netloc` (CPython 3.11) on the
inputs `validate_url` feeds it: remove every tab/CR/LF, take the
authority after the `//` up to the first `/`, `?` or `#`, raise
`Invalid IPv6 URL` on a mismatched square bracket, and validate a
bracketed host (the text between the first `[` and the next `]`) via
`_check_bracketed_host`.  Error messages are representative, not
verbatim; `validate_url` only embeds them into its reason string. -/
def pyUrlparseNetloc (url : String) : Except String String :=
  let url := String.mk (url.data.filter
    (fun c => c ≠ '\t' && c ≠ '\r' && c ≠ '\n'))
  let afterScheme :=
    if pyStartswith url "http://" then pyDrop url 7
    else if pyStartswith url "https://" then pyDrop url 8
    else ""
  let netloc := String.mk (afterScheme.data.takeWhile
    (fun c => c ≠ '/' && c ≠ '?' && c ≠ '#'))
  if (strContains netloc "[" != strContains netloc "]") then
    .error "Invalid IPv6 URL"
  else if strContains netloc "[" && strContains netloc "]" then
    let bracketed_host := ((netloc.data.dropWhile (· ≠ '[')).tail).takeWhile (· ≠ ']')
    if bracketed_host_ok bracketed_host then .ok netloc
    else .error "invalid bracketed host"
  else .ok netloc

/-- `utils.validate_url`: http(s) scheme, well-formed, max 2048 chars.
`if not url or not url.strip()` is equivalent to the stripped string being
empty.  Note the source strips the URL before the length and scheme checks. -/
def validate_url (url : String) : Bool × String :=
  if pyStrip url = "" then (false, "URL is required")
  else
    let url := pyStrip url
    if url.length > 2048 then
      (false, "URL exceeds maximum length of 2048 characters")
    else if !(pyStartswith url "http://" || pyStartswith url "https://") then
      (false, "Only http:// and https:// URLs are supported")
    else
      match pyUrlparseNetloc url with
      | .ok netloc =>
        if netloc ≠ "" then (true, "") else (false, "Invalid URL format")
      | .error e => (false, s!"Invalid URL: {e}")

/-! ## Robots gate (`utils.check_robots_txt`) -/

/-- Outcome of the robots.txt fetch inside `check_robots_txt`.  For the
`response` case, `canFetch` is the value `RobotFileParser.can_fetch(user_agent,
url)` computes from the fetched body, i.e. whether no matching `Disallow`
rule blocks the target URL for the given user agent. -/
inductive RobotsFetchOutcome where
  | response (status : Nat) (canFetch : Bool)
  | timeout
  | fetchError (message : String)
  | urlError (message : String)
deriving Repr, DecidableEq

/-- `utils.check_robots_txt`, as a function of the fetch outcome.
Returns `(is_allowed, message)`. -/
def check_robots_txt (outcome : RobotsFetchOutcome) : Bool × String :=
  match outcome with
  | .response status canFetch =>
    if status = 404 then (true, "No robots.txt found - scraping allowed")
    else if status ≠ 200 then
      (true, s!"Could not fetch robots.txt (status {status}) - proceeding anyway")
    else if canFetch = false then (false, "URL disallowed by robots.txt")
    else (true, "Robots.txt allows scraping")
  | .timeout => (true, "Robots.txt fetch timeout - proceeding anyway")
  | .fetchError e => (true, s!"Error checking robots.txt: {e} - proceeding anyway")
  | .urlError e => (true, s!"Error parsing robots.txt URL: {e} - proceeding anyway")

/-! ## Raw-markup truncation (`parser.truncate_html`) -/

/-- `parser.truncate_html`: truncate HTML to `max_length` characters,
returning `(truncated_html, was_truncated)`. -/
def truncate_html (html : String) (max_length : Nat := MAX_RAW_HTML_LENGTH) :
    String × Bool :=
  if html.length ≤ max_length then (html, false)
  else (pyTake html max_length ++ "...", true)

/-! ## Static fetcher (`static.scrape_static`) -/

/-- Outcome of the `httpx` GET inside `scrape_static`: the body and final
URL on success, or the exception class the source distinguishes
(`httpx.TimeoutException`, `httpx.HTTPStatusError` from
`raise_for_status()`, any other transport `Exception`). -/
inductive StaticFetchOutcome where
  | success (html : String) (finalUrl : String)
  | timeout
  | httpStatusError (status : Nat) (reason : String)
  | transportError (message : String)
deriving Repr, DecidableEq

/-- `static.scrape_static`, as a function of the fetch outcome.
`needsJs` is `utils.needs_js_rendering`; `parsePhase` is the
`extract_meta`/`parse_html` step, whose exceptions the source converts to a
`(None, False)` return (`except Exception` with a parsing-phase error).
Returns `(ScrapeResult | None, needs_js_flag)`. -/
def scrape_static (outcome : StaticFetchOutcome) (needsJs : String → Bool)
    (parsePhase : String → String → Except String (Meta × List Section))
    (now : String) : Option ScrapeResult × Bool :=
  match outcome with
  | .timeout => (none, true)
  | .httpStatusError _ _ => (none, false)
  | .transportError _ => (none, false)
  | .success html finalUrl =>
    if needsJs html then (none, true)
    else
      match parsePhase html finalUrl with
      | .error _ => (none, false)
      | .ok (meta, sections) =>
        (some { url := finalUrl, scrapedAt := now, meta := meta,
                sections := sections,
                interactions := { clicks := [], scrolls := 0, pages := [finalUrl] },
                errors := [] }, false)

/-! ## Scrape orchestrator (`scraper.scrape_url`) -/

/-- `scraper._error_result`: minimal error result. -/
def error_result (url now : String) (errors : List ScrapeError) : ScrapeResult :=
  { url := url, scrapedAt := now,
    meta := { title := "Error", description := "", language := "en",
              canonical := none, strategy := none },
    sections := [], interactions := {}, errors := errors }

/-- Message of the non-fatal fallback error recorded by `scrape_url`. -/
def fallbackMsg : String :=
  "Static HTML insufficient - using JavaScript rendering with interactions"

/-- The `try:` body of `scraper.scrape_url` (its fallback ladder after
validation and the robots gate).  `stat` is the outcome of the
`scrape_static` call and `dyn` of the (at most one) `scrape_dynamic` call;
`.error` models the call raising an unexpected exception.  Returns
`.ok (some r, errs)` for an early `return r`, `.ok (none, errs)` when the
body falls through (dynamic and static both produced nothing), and
`.error (e, errs)` when an exception escapes the body; `errs` is the
`errors` list accumulated up to that point. -/
def scrape_url_try (url : String) (enable_interactions : Bool)
    (stat : Except String (Option ScrapeResult × Bool))
    (dyn : Except String (Option ScrapeResult)) (now : String) :
    Except (String × List ScrapeError) (Option ScrapeResult × List ScrapeError) :=
  if enable_interactions then
    match dyn with
    | .error e => .error (e, [])
    | .ok dynamic_result =>
      .ok (some (dynamic_result.getD (error_result url now [])), [])
  else
    match stat with
    | .error e => .error (e, [])
    | .ok (static_result, needs_js) =>
      match static_result, needs_js with
      | some r, false => .ok (some r, [])
      | _, _ =>
        let errors : List ScrapeError := [⟨fallbackMsg, "fallback"⟩]
        match dyn with
        | .error e => .error (e, errors)
        | .ok dynamic_result =>
          match dynamic_result.orElse (fun _ => static_result) with
          | some result =>
            .ok (some { result with errors := result.errors ++ errors }, errors)
          | none => .ok (none, errors)

/-- `scraper.scrape_url`: validate, check robots, then run the fallback
ladder, converting any exception escaping the `try:` body into an
orchestration-phase error result.  `robots` is the robots.txt fetch
outcome; `stat`/`dyn` are the sub-scraper call outcomes as in
`scrape_url_try`. -/
def scrape_url (url : String) (enable_interactions : Bool)
    (interaction_strategy : String) (robots : RobotsFetchOutcome)
    (stat : Except String (Option ScrapeResult × Bool))
    (dyn : Except String (Option ScrapeResult)) (now : String) : ScrapeResult :=
  if (validate_url url).1 = false then
    error_result url now [⟨(validate_url url).2, "validation"⟩]
  else if (check_robots_txt robots).1 = false then
    error_result url now [⟨(check_robots_txt robots).2, "validation"⟩]
  else
    match scrape_url_try url enable_interactions stat dyn now with
    | .ok (some r, _) => r
    | .ok (none, errors) => error_result url now errors
    | .error (e, errors) =>
      error_result url now
        (errors ++ [⟨s!"Unexpected error during scraping: {e}", "orchestration"⟩])

/-! ## HTML document model

`BeautifulSoup(html, "lxml")` trees are modelled as `Node` values: a node
is either a `NavigableString` or a `Tag` with a name, attributes and
children.  Parsing of the raw HTML string itself is not modelled; the
parser functions below take the parsed document tree (the soup), whose
root plays the role of the `[document]` node. -/

inductive Node where
  | text : String → Node
  | elem : String → List (String × String) → List Node → Node
deriving Repr, Inhabited

/-- Attribute lookup on a tag's attribute list (`element.get(key)`). -/
def attrGet (attrs : List (String × String)) (key : String) : Option String :=
  (attrs.find? (fun p => p.1 = key)).map (·.2)

/-- `element.name` (the empty string for a `NavigableString`). -/
def tagOf : Node → String
  | .text _ => ""
  | .elem t _ _ => t

/-- `element.attrs`. -/
def attrsOf : Node → List (String × String)
  | .text _ => []
  | .elem _ a _ => a

/-- `element.get(key)` on a node. -/
def attrOf (n : Node) (key : String) : Option String :=
  attrGet (attrsOf n) key

/-- `element.children` (direct children). -/
def childrenOf : Node → List Node
  | .text _ => []
  | .elem _ _ cs => cs

/-- `isinstance(node, Tag)`. -/
def isElemNode : Node → Bool
  | .text _ => false
  | .elem _ _ _ => true

/-- The multi-valued `class` attribute (`element.get("class", [])`):
BeautifulSoup splits the raw attribute value on whitespace. -/
def classTokensOf (attrs : List (String × String)) : List String :=
  pySplitWs ((attrGet attrs "class").getD "")

mutual

/-- All `NavigableString`s of a subtree in document order
(`element.strings`, the basis of `get_text`). -/
def stringsNode : Node → List String
  | .text s => [s]
  | .elem _ _ cs => stringsList cs

def stringsList : List Node → List String
  | [] => []
  | c :: rest => stringsNode c ++ stringsList rest

end

/-- `element.get_text(separator=sep, strip=strip)`: join the subtree's
strings with the separator; with `strip`, strip each string and drop the
ones that become empty. -/
def getText (n : Node) (sep : String) (strip : Bool) : String :=
  let raw := stringsNode n
  strJoin sep (if strip then (raw.map pyStrip).filter (· ≠ "") else raw)

mutual

/-- Elements of a subtree (the root element included) whose tag satisfies
`p`, in document order. -/
def allElems (p : String → Bool) : Node → List Node
  | .text _ => []
  | .elem t a cs =>
    (if p t then [Node.elem t a cs] else []) ++ allElemsList p cs

def allElemsList (p : String → Bool) : List Node → List Node
  | [] => []
  | c :: rest => allElems p c ++ allElemsList p rest

end

/-- `element.find_all(tags)`: matching descendants in document order
(the element itself is not a candidate). -/
def descElems (p : String → Bool) : Node → List Node
  | .text _ => []
  | .elem _ _ cs => allElemsList p cs

/-- `element.find(tag)`: first matching descendant. -/
def findFirst (p : String → Bool) (n : Node) : Option Node :=
  (descElems p n).head?

mutual

/-- Landmark-style element collection carrying the list of ancestor tag
names, in document order: implements `soup.find_all(tags)` together with
the information `element.find_parent(tags)` consults. -/
def collectAnc (p : String → Bool) (anc : List String) : Node → List (Node × List String)
  | .text _ => []
  | .elem t a cs =>
    (if p t then [(Node.elem t a cs, anc)] else []) ++ collectAncList p (t :: anc) cs

def collectAncList (p : String → Bool) (anc : List String) :
    List Node → List (Node × List String)
  | [] => []
  | c :: rest => collectAnc p anc c ++ collectAncList p anc rest

end

/-! ## Content parser (`backend/scraper/parser.py`) -/

/-- Head of `config.NOISE_SELECTORS` matching, fused into one predicate:
an element is noise when any of the noise selectors matches it (tag
`script`/`style`/`noscript`, `[role='dialog']`, the `[class*=...]` /
`[id*='cookie']` attribute-substring selectors, or the `.advertisement` /
`.ad-container` class selectors).  `clean_html`'s per-selector `decompose`
loop is equivalent to one filter pass removing every maximal noise
element with its subtree. -/
def isNoiseElem (t : String) (attrs : List (String × String)) : Bool :=
  let cls := (attrGet attrs "class").getD ""
  let idv := (attrGet attrs "id").getD ""
  t = "script" || t = "style" || t = "noscript"
    || attrGet attrs "role" = some "dialog"
    || strContains cls "cookie" || strContains cls "gdpr"
    || strContains idv "cookie"
    || strContains cls "popup" || strContains cls "modal"
    || strContains cls "overlay" || strContains cls "banner"
    || (classTokensOf attrs).contains "advertisement"
    || (classTokensOf attrs).contains "ad-container"
    || strContains cls "consent"

mutual

/-- One filter pass over a sibling list removing noise elements. -/
def cleanChildren : List Node → List Node
  | [] => []
  | c :: rest => cleanNode c ++ cleanChildren rest

/-- Keep a node (with cleaned children) unless it is noise. -/
def cleanNode : Node → List Node
  | .text s => [.text s]
  | .elem t a cs =>
    if isNoiseElem t a then [] else [.elem t a (cleanChildren cs)]

end

/-- `parser.clean_html`: remove noise elements in the whole soup (the
root document node itself is never a selector match). -/
def clean_html : Node → Node
  | .text s => .text s
  | .elem t a cs => .elem t a (cleanChildren cs)

/-- `parser.classify_section_type`. -/
def classify_section_type (element : Node) : String :=
  let tag_name := pyLower (tagOf element)
  let class_str := pyLower (strJoin " " (classTokensOf (attrsOf element)))
  let id_str := pyLower ((attrOf element "id").getD "")
  let combined := s!"{tag_name} {class_str} {id_str}"
  match (SECTION_TYPE_KEYWORDS.find?
      (fun p => p.2.any (fun k => strContains combined k))).map (·.1) with
  | some ty => ty
  | none =>
    if tag_name = "nav" then "nav"
    else if tag_name = "footer" then "footer"
    else if tag_name = "header" || strContains (s!"{class_str} {id_str}") "hero" then
      "hero"
    else if tag_name = "article" || tag_name = "section" then "section"
    else "unknown"

def headingTags : List String := ["h1", "h2", "h3", "h4", "h5", "h6"]

/-- `parser.generate_label`, step 2: derive the label from the first words
of the element's text, else fall back to the section type. -/
def generate_label_from_text (element : Node) (section_type : String) : String :=
  let text := getText element " " true
  if text ≠ "" then
    let text := collapseWs text
    let words := (pySplitWs text).take 7
    let label := strJoin " " words
    let label :=
      if words.length ≥ 7 || text.length > label.length then label ++ "..." else label
    pyTake label 50
  else s!"{pyCapitalize section_type} Section"

/-- `parser.generate_label`: heading text when a non-empty heading exists,
else the first words of the text, else the section type. -/
def generate_label (element : Node) (section_type : String) : String :=
  match findFirst (· ∈ headingTags) element with
  | some heading =>
    let text := getText heading "" true
    if text ≠ "" then pyTake text 50 ++ (if text.length > 50 then "..." else "")
    else generate_label_from_text element section_type
  | none => generate_label_from_text element section_type

/-- `parser.extract_headings`: all non-empty heading texts, in document
order. -/
def extract_headings (element : Node) : List String :=
  ((descElems (· ∈ headingTags) element).map (fun h => getText h "" true)).filter
    (· ≠ "")

mutual

/-- One child's contribution inside `extract_text.get_text_skipping_tags`:
a stripped non-empty `NavigableString`, or the recursively joined text of
a tag not being skipped (appended even when empty, as in the source). -/
def gtstNode (skip : List String) : Node → List String
  | .text s => if pyStrip s ≠ "" then [pyStrip s] else []
  | .elem t _ cs =>
    if t ∈ skip then [] else [strJoin " " (gtstList skip cs)]

def gtstList (skip : List String) : List Node → List String
  | [] => []
  | c :: rest => gtstNode skip c ++ gtstList skip rest

end

mutual

/-- `a` elements of a subtree having no `table` ancestor within it
(`element.find_all("a")` filtered by `not a.find_parent("table")`; the
ancestors above the element handed to `extract_text` are not modelled, as
the callers never pass an element living inside a table). -/
def anchorsNoTableNode : Node → List Node
  | .text _ => []
  | .elem t a cs =>
    if t = "table" then []
    else (if t = "a" then [Node.elem t a cs] else []) ++ anchorsNoTableList cs

def anchorsNoTableList : List Node → List Node
  | [] => []
  | c :: rest => anchorsNoTableNode c ++ anchorsNoTableList rest

end

/-- `parser.extract_text`: recursive text join skipping `table` subtrees,
whitespace-collapsed and stripped, suppressed entirely when more than 60%
of the characters belong to anchor text (density compared exactly on
rationals: `link_text_len / len(text) > 0.6` becomes
`5 * link_text_len > 3 * len(text)`). -/
def extract_text (element : Node) : String :=
  let text := strJoin " " (gtstList ["table"] (childrenOf element))
  let text := pyStrip (collapseWs text)
  if text = "" then ""
  else
    let link_text_len :=
      ((anchorsNoTableList (childrenOf element)).map
        (fun a => (getText a "" true).length)).sum
    if 5 * link_text_len > 3 * text.length then "" else text

/-- `parser.extract_links`: absolute-resolved links deduplicated by
resolved URL, skipping empty, fragment, `javascript:`, `mailto:` and
`tel:` targets.  `resolve` stands for `urllib.parse.urljoin`. -/
def extract_links (resolve : String → String → String) (element : Node)
    (base_url : String) : List LinkItem :=
  (((descElems (· = "a") element).foldl (fun acc aTag =>
    match attrOf aTag "href" with
    | none => acc
    | some hrefRaw =>
      let href := pyStrip hrefRaw
      if href = "" || pyStartswith href "#" || pyStartswith href "javascript:"
          || pyStartswith href "mailto:" || pyStartswith href "tel:" then acc
      else
        let absolute_url := resolve base_url href
        if acc.1.contains absolute_url then acc
        else
          let text := let t := getText aTag "" true
            if t = "" then absolute_url else t
          (acc.1 ++ [absolute_url], acc.2 ++ [LinkItem.mk text absolute_url]))
    (([] : List String), ([] : List LinkItem)))).2

/-- `parser.extract_images`: absolute-resolved `src` (or `data-src`)
deduplicated by resolved URL, with stripped alt text. -/
def extract_images (resolve : String → String → String) (element : Node)
    (base_url : String) : List ImageItem :=
  (((descElems (· = "img") element).foldl (fun acc imgTag =>
    let src :=
      match attrOf imgTag "src" with
      | some v => if v = "" then (attrOf imgTag "data-src").getD "" else v
      | none => (attrOf imgTag "data-src").getD ""
    if src = "" then acc
    else
      let src := pyStrip src
      let absolute_url := resolve base_url src
      if acc.1.contains absolute_url then acc
      else
        let alt := pyStrip ((attrOf imgTag "alt").getD "")
        (acc.1 ++ [absolute_url], acc.2 ++ [ImageItem.mk absolute_url alt]))
    (([] : List String), ([] : List ImageItem)))).2

mutual

/-- `ul`/`ol` elements of a subtree having no `ul`/`ol` ancestor within it
(`find_all(["ul","ol"])` filtered by `not find_parent(["ul","ol"])`):
collection stops descending below a matched list, since everything below
it has it as an ancestor. -/
def topListsNode : Node → List Node
  | .text _ => []
  | .elem t a cs =>
    if t = "ul" || t = "ol" then [Node.elem t a cs] else topListsList cs

def topListsList : List Node → List Node
  | [] => []
  | c :: rest => topListsNode c ++ topListsList rest

end

/-- `parser.extract_lists`: each top-level `ul`/`ol` becomes the list of
its direct `li` children's non-empty texts; empty item lists are dropped. -/
def extract_lists (element : Node) : List (List String) :=
  ((topListsList (childrenOf element)).map (fun l =>
    (((childrenOf l).filter (fun c => tagOf c = "li" && isElemNode c)).map
      (fun li => getText li "" true)).filter (· ≠ "")))
    |>.filter (· ≠ [])

mutual

/-- `tr` elements of a subtree having no `thead` ancestor within it
(`tbody.find_all("tr")` filtered by `not tr.find_parent("thead")`). -/
def trsNoTheadNode : Node → List Node
  | .text _ => []
  | .elem t a cs =>
    if t = "thead" then []
    else (if t = "tr" then [Node.elem t a cs] else []) ++ trsNoTheadList cs

def trsNoTheadList : List Node → List Node
  | [] => []
  | c :: rest => trsNoTheadNode c ++ trsNoTheadList rest

end

/-- `parser.extract_tables`: header row from the first `thead`'s first
`tr`, data rows from the `tbody` (or the table itself), skipping rows
inside a `thead`; a table is kept when it has headers or rows. -/
def extract_tables (element : Node) : List TableData :=
  ((descElems (· = "table") element).map (fun tableTag =>
    let headers :=
      match findFirst (· = "thead") tableTag with
      | none => []
      | some thead =>
        match findFirst (· = "tr") thead with
        | none => []
        | some header_row =>
          (descElems (fun t => t = "th" || t = "td") header_row).map
            (fun th => getText th "" true)
    let tbody := (findFirst (· = "tbody") tableTag).getD tableTag
    let rows :=
      ((trsNoTheadList (childrenOf tbody)).map (fun tr =>
        (descElems (fun t => t = "td" || t = "th") tr).map
          (fun td => getText td "" true))).filter (· ≠ [])
    TableData.mk headers rows)).filter
    (fun td => td.headers ≠ [] || td.rows ≠ [])

/-- `parser.extract_content`. -/
def extract_content (resolve : String → String → String) (element : Node)
    (base_url : String) : Content :=
  { headings := extract_headings element
    text := extract_text element
    links := extract_links resolve element base_url
    images := extract_images resolve element base_url
    lists := extract_lists element
    tables := extract_tables element }

mutual

/-- `str(element)`: serialize a node back to markup.  Entity re-escaping
and void-element formatting of BeautifulSoup's output are not modelled;
no claim depends on the exact characters, only on lengths entering
`truncate_html`. -/
def nodeToString : Node → String
  | .text s => s
  | .elem t attrs cs =>
    "<" ++ t ++ String.join (attrs.map (fun p => s!" {p.1}=\"{p.2}\"")) ++ ">"
      ++ nodeListToString cs ++ "</" ++ t ++ ">"

def nodeListToString : List Node → String
  | [] => ""
  | c :: rest => nodeToString c ++ nodeListToString rest

end

/-- The emptiness test guarding every `Section` emission in the parser
(`not content.text and not content.headings and not content.links and not
content.tables and not content.images`). -/
def isEmptyContent (c : Content) : Bool :=
  c.text = "" && c.headings.isEmpty && c.links.isEmpty && c.tables.isEmpty
    && c.images.isEmpty

def landmarkTags : List String :=
  ["header", "nav", "main", "section", "article", "aside", "footer"]

/-- The tag list of the `find_parent` nesting check in
`group_by_landmarks`.  Note the source omits `aside` here although it is
in the `find_all` landmark list. -/
def landmarkParentTags : List String :=
  ["header", "nav", "main", "section", "article", "footer"]

/-- `soup.find_all(landmarks)` with each element's ancestor tags (the
soup root is not a candidate). -/
def soupLandmarks (soup : Node) : List (Node × List String) :=
  match soup with
  | .text _ => []
  | .elem t _ cs => collectAncList (· ∈ landmarkTags) [t] cs

/-- The body of `group_by_landmarks`' loop over found landmarks, carrying
`section_counter` (which the source increments even for sections skipped
as empty). -/
def landmarkLoop (resolve : String → String → String) (base_url : String) :
    Nat → List (Node × List String) → List Section
  | _, [] => []
  | counter, (element, ancs) :: rest =>
    if ancs.any (· ∈ landmarkParentTags) then
      landmarkLoop resolve base_url counter rest
    else
      let section_type := classify_section_type element
      let label := generate_label element section_type
      let section_id := s!"{section_type}-{counter}"
      let content := extract_content resolve element base_url
      if isEmptyContent content then landmarkLoop resolve base_url (counter + 1) rest
      else
        let (raw_html, truncated) := truncate_html (nodeToString element)
        { id := section_id, type := section_type, label := label,
          sourceUrl := base_url, content := content, rawHtml := raw_html,
          truncated := truncated } :: landmarkLoop resolve base_url (counter + 1) rest

/-- `parser.group_by_landmarks`. -/
def group_by_landmarks (resolve : String → String → String) (soup : Node)
    (base_url : String) : List Section :=
  landmarkLoop resolve base_url 0 (soupLandmarks soup)

/-- Whether a node is a `Tag` named `h1`, `h2` or `h3`. -/
def isH123 : Node → Bool
  | .text _ => false
  | .elem t _ _ => t ∈ ["h1", "h2", "h3"]

/-- The sibling walk of `group_by_headings`: following siblings collected
up to (not including) the next `h1`–`h3` tag; only tags are kept
(`isinstance(current, Tag)`), strings neither stop nor join the wrapper. -/
def takeUntilHeading (ns : List Node) : List Node :=
  (ns.takeWhile (fun n => !isH123 n)).filter isElemNode

mutual

/-- `soup.find_all(["h1","h2","h3"])` in document order, each heading
paired with the sibling range `group_by_headings` wraps with it.  The
source moves these nodes into a fresh wrapper tag; since ranges between
consecutive `h1`–`h3` siblings are disjoint and a move keeps a subtree's
internal sibling structure, the destructive walk is modelled as this pure
collection. -/
def headingGroupsHead : Node → List Node → List (Node × List Node)
  | .text _, _ => []
  | .elem t a cs, rest =>
    (if t ∈ ["h1", "h2", "h3"] then
      [(Node.elem t a cs, takeUntilHeading rest)] else [])
      ++ headingGroupsList cs

def headingGroupsList : List Node → List (Node × List Node)
  | [] => []
  | c :: rest => headingGroupsHead c rest ++ headingGroupsList rest

end

/-- Heading groups of the whole soup (the root is not a candidate). -/
def soupHeadingGroups (soup : Node) : List (Node × List Node) :=
  match soup with
  | .text _ => []
  | .elem _ _ cs => headingGroupsList cs

/-- The body of `group_by_headings`' loop, carrying `section_counter`. -/
def headingLoop (resolve : String → String → String) (base_url : String) :
    Nat → List (Node × List Node) → List Section
  | _, [] => []
  | counter, (heading, content_elements) :: rest =>
    let wrapper := Node.elem "div" [] (heading :: content_elements)
    let label := pyTake (getText heading "" true) 50
    let section_id := s!"heading-section-{counter}"
    let content := extract_content resolve wrapper base_url
    if isEmptyContent content then headingLoop resolve base_url (counter + 1) rest
    else
      let (raw_html, truncated) := truncate_html (nodeToString wrapper)
      { id := section_id, type := "section", label := label,
        sourceUrl := base_url, content := content, rawHtml := raw_html,
        truncated := truncated } :: headingLoop resolve base_url (counter + 1) rest

/-- `parser.group_by_headings`. -/
def group_by_headings (resolve : String → String → String) (soup : Node)
    (base_url : String) : List Section :=
  headingLoop resolve base_url 0 (soupHeadingGroups soup)

/-- `parser.parse_html`: clean the soup, try landmark grouping (kept when
it yields at least 2 sections), fall back to heading grouping, and as a
last resort wrap `main`/`body`/the soup as one section when it has
content. -/
def parse_html (resolve : String → String → String) (html : Node)
    (url : String) : List Section :=
  let soup := clean_html html
  let sections := group_by_landmarks resolve soup url
  if sections.length ≥ 2 then sections
  else
    let sections := group_by_headings resolve soup url
    if sections.isEmpty then
      let main_element :=
        ((findFirst (· = "main") soup).getD
          ((findFirst (· = "body") soup).getD soup))
      let content := extract_content resolve main_element url
      if !(isEmptyContent content) then
        let raw_html0 := pyTake (nodeToString main_element) MAX_RAW_HTML_LENGTH
        let (raw_html, truncated) := truncate_html raw_html0
        [{ id := "main-content-0", type := "section",
           label := generate_label main_element "section", sourceUrl := url,
           content := content, rawHtml := raw_html, truncated := truncated }]
      else []
    else sections

/-! ## Interaction handlers (`backend/scraper/interactions.py`)

Playwright calls are modelled as oracles: each loop round receives the
outcome of the page queries/clicks it performs, and the embedding mirrors
the source's control flow on those outcomes. -/

/-- One element returned by `page.query_selector_all` in `try_click_tabs`:
its inner text, and whether reading the text and clicking succeed
(`clickOk = false` models the `PlaywrightTimeout`/`PlaywrightError`
caught per tab). -/
structure TabElem where
  innerTextVal : String
  clickOk : Bool
deriving Repr, DecidableEq, Inhabited

/-- The page as seen by `try_click_tabs`: the element list each selector
matches, and whether the query itself raises. -/
structure TabPage where
  queryAll : String → List TabElem
  queryFails : String → Bool

/-- The selector loop of `try_click_tabs`: clicks up to
`MAX_TABS_TO_CLICK` matched elements, stops trying further selector
patterns once any clicks succeeded. -/
def try_click_tabs_loop (page : TabPage) : List String → List String
  | [] => []
  | sel :: rest =>
    if page.queryFails sel then try_click_tabs_loop page rest
    else
      let tabs := page.queryAll sel
      if tabs.isEmpty then try_click_tabs_loop page rest
      else
        let clicks := (tabs.take MAX_TABS_TO_CLICK).foldl (fun acc tab =>
          if tab.clickOk then
            let text := pyTake (pyStrip tab.innerTextVal) MAX_TEXT_PREVIEW_LENGTH
            acc ++ [s!"Tab clicked: {sel} - {text}"]
          else acc) []
        if clicks.isEmpty then try_click_tabs_loop page rest else clicks

/-- `interactions.try_click_tabs`. -/
def try_click_tabs (page : TabPage) : List String :=
  try_click_tabs_loop page TAB_SELECTORS

/-- Outcome of probing one load-more selector in one round:
no visible button; a Playwright error before the click is recorded
(caught, next selector tried); a fully successful click with the button
text and the DOM element counts measured before and after; or a click
whose follow-up `page.evaluate` (the element count after) raises a
Playwright error — the click is already recorded and counted, and the
`except` moves on to the next selector in the same round. -/
inductive LMResp where
  | missing
  | raised
  | clicked (text : String) (countBefore countAfter : Nat)
  | clickedThenRaised (text : String)
deriving Repr, DecidableEq

/-- The page as seen by `try_click_load_more`: the outcome of each
selector probe in each round. -/
structure LMPage where
  resp : Nat → String → LMResp

/-- State threaded through one round's selector scan in
`try_click_load_more`. -/
structure LMScanState where
  clicks : List String
  count : Nat
  clicked : Bool
  earlyReturn : Bool
deriving Repr, DecidableEq

/-- The inner selector loop of one `try_click_load_more` round.  A fully
successful click stops the scan: the function returns early when the
element count did not grow (`earlyReturn`), else the `break` ends the
round.  A click whose follow-up count read raises keeps the click
recorded and continues with the next selector, as in the source. -/
def lmScan (page : LMPage) (round : Nat) :
    List String → LMScanState → LMScanState
  | [], st => st
  | sel :: rest, st =>
    match page.resp round sel with
    | .missing => lmScan page round rest st
    | .raised => lmScan page round rest st
    | .clickedThenRaised text =>
      let text := pyTake (pyStrip text) MAX_TEXT_PREVIEW_LENGTH
      lmScan page round rest
        { st with
          clicks := st.clicks ++ [s!"Load more clicked ({round + 1}): {text}"],
          count := st.count + 1, clicked := true }
    | .clicked text countBefore countAfter =>
      let text := pyTake (pyStrip text) MAX_TEXT_PREVIEW_LENGTH
      let st := { st with
        clicks := st.clicks ++ [s!"Load more clicked ({round + 1}): {text}"],
        count := st.count + 1, clicked := true }
      if countAfter ≤ countBefore then { st with earlyReturn := true }
      else st

/-- The attempt loop of `try_click_load_more`: stop on the early return,
when no button was clicked this round, or after `max_clicks` rounds. -/
def lmLoop (page : LMPage) : Nat → Nat → LMScanState → List String × Nat
  | _, 0, st => (st.clicks, st.count)
  | round, remaining + 1, st =>
    let st2 := lmScan page round LOAD_MORE_SELECTORS
      { st with clicked := false, earlyReturn := false }
    if st2.earlyReturn then (st2.clicks, st2.count)
    else if !st2.clicked then (st2.clicks, st2.count)
    else lmLoop page (round + 1) remaining st2

/-- `interactions.try_click_load_more`. -/
def try_click_load_more (page : LMPage)
    (max_clicks : Nat := MAX_INTERACTION_DEPTH) : List String × Nat :=
  lmLoop page 0 max_clicks
    { clicks := [], count := 0, clicked := false, earlyReturn := false }

/-- The page as seen by `try_infinite_scroll`: scroll height and URL
observed in each round, and whether the round's Playwright calls raise
(which breaks the loop).  A failure striking after the round's counter
increment also just breaks the loop; it is modelled as the following
round failing, which yields the same scroll count (only that round's URL
may additionally be recorded, on which no claim depends). -/
structure ScrollPage where
  height : Nat → Nat
  url : Nat → String
  fails : Nat → Bool

/-- The scroll loop of `try_infinite_scroll`: stop when the height stops
growing, on an error, or after `max_scrolls` rounds; distinct URLs seen
after scrolling are collected in order. -/
def scrollLoop (page : ScrollPage) :
    Nat → Nat → Nat → Nat → List String → Nat × List String
  | _, 0, _, count, visited => (count, visited)
  | round, remaining + 1, prev, count, visited =>
    if page.fails round then (count, visited)
    else
      let current := page.height round
      if prev > 0 && current ≤ prev then (count, visited)
      else
        let count := count + 1
        let u := page.url round
        let visited := if visited.contains u then visited else visited ++ [u]
        scrollLoop page (round + 1) remaining current count visited

/-- `interactions.try_infinite_scroll`. -/
def try_infinite_scroll (page : ScrollPage)
    (max_scrolls : Nat := MAX_INTERACTION_DEPTH) : Nat × List String :=
  scrollLoop page 0 max_scrolls 0 0 []

/-- Outcome of probing one pagination selector: no visible control, a
Playwright error, or a click landing the page in state `next` (the URL
may or may not have changed).  `raised` covers an error striking anywhere
before a hop is recorded — including after the click itself, during the
load-state wait — where the source records nothing and moves to the next
selector; any underlying page change in that case is absorbed by the
later probes' outcomes, the probe oracle being an arbitrary function of
the abstract state.  An error after the hop is recorded (the markup
capture) is the separate `contentFails` path of `PagPage`. -/
inductive PagResp (σ : Type) where
  | missing
  | raised
  | clicked (next : σ)

/-- The page as seen by `try_pagination`: an abstract page state with its
URL and full markup, whether a `page.content()` capture at that state
raises (swallowed for the initial capture; after a recorded hop it makes
the `except` continue the selector scan), and each selector probe's
outcome. -/
structure PagPage (σ : Type) where
  url : σ → String
  content : σ → String
  contentFails : σ → Bool
  resp : σ → String → PagResp σ

/-- State threaded through one round's selector scan in
`try_pagination`. -/
structure PagState (σ : Type) where
  s : σ
  visited : List String
  count : Nat
  htmls : List String
  clicked : Bool

/-- The inner selector loop of one `try_pagination` round.  A click whose
navigation changed the URL to an unvisited one records the hop
(`pages_visited`, `pages_count`, `clicked`); if capturing the new page's
markup then raises, the `except` continues with the next selector from
the new page state with the hop still recorded, else the `break` ends the
round.  A click that does not qualify also leaves the page in the
post-click state, from which the next selector is probed, as in the
source. -/
def pagScan {σ : Type} (page : PagPage σ) :
    List String → PagState σ → PagState σ
  | [], st => st
  | sel :: rest, st =>
    match page.resp st.s sel with
    | .missing => pagScan page rest st
    | .raised => pagScan page rest st
    | .clicked s2 =>
      let url_before := page.url st.s
      let url_after := page.url s2
      if url_after != url_before && !st.visited.contains url_after then
        let st2 := { st with s := s2, visited := st.visited ++ [url_after],
                             count := st.count + 1, clicked := true }
        if page.contentFails s2 then pagScan page rest st2
        else { st2 with htmls := st2.htmls ++ [page.content s2] }
      else pagScan page rest { st with s := s2 }

/-- The page loop of `try_pagination`: keep going while some hop was
recorded this round, else stop (`if not clicked: break`). -/
def pagLoop {σ : Type} (page : PagPage σ) :
    Nat → PagState σ → List String × Nat × List String
  | 0, st => (st.visited, st.count, st.htmls)
  | remaining + 1, st =>
    let st2 := pagScan page PAGINATION_SELECTORS { st with clicked := false }
    if st2.clicked then pagLoop page remaining st2
    else (st2.visited, st2.count, st2.htmls)

/-- `interactions.try_pagination`: `(pages_visited, pages_count,
html_contents)`, starting from the current page (already counted) and
running at most `max_pages - 1` further rounds. -/
def try_pagination {σ : Type} (page : PagPage σ) (s0 : σ)
    (max_pages : Nat := MAX_INTERACTION_DEPTH) :
    List String × Nat × List String :=
  let visited := [page.url s0]
  let htmls := if page.contentFails s0 then [] else [page.content s0]
  pagLoop page (max_pages - 1)
    { s := s0, visited := visited, count := 1, htmls := htmls, clicked := false }

/-- The page as seen by `handle_interactions`: the orchestrator treats its
sub-strategy calls as black boxes, so the embedding receives each call's
result.  `scroll`/`pagination` are indexed by call number, since the
`auto` fallback can invoke them a second time on a changed page. -/
structure InteractionOracles where
  url0 : String
  tabsResult : List String
  loadMoreResult : List String × Nat
  scrollResult : Nat → Nat × List String
  paginationResult : Nat → List String × Nat × List String

/-- The dict returned by `handle_interactions`. -/
structure InteractionResult where
  clicks : List String
  scrolls : Nat
  pages : List String
  html_contents : List String
deriving Repr, DecidableEq, Inhabited

/-- The `for p in ...: if p not in pages: pages.append(p)` merges. -/
def addNewPages (pages newPages : List String) : List String :=
  newPages.foldl (fun ps p => if ps.contains p then ps else ps ++ [p]) pages

/-- `interactions.handle_interactions`: strategy dispatch over the four
sub-strategies, then the `auto` fallback re-running scroll and pagination
when nothing produced a click, a scroll or a new page.  Besides the
result dict, the embedding returns the trace of sub-strategy invocations
in order, to make the dispatch behaviour itself observable. -/
def handle_interactions (page : InteractionOracles) (strategy : String := "auto") :
    InteractionResult × List String :=
  let clicks : List String := []
  let scrolls : Nat := 0
  let pages : List String := [page.url0]
  let html_contents : List String := []
  let trace : List String := []
  let (clicks, trace) :=
    if strategy ∈ ["auto", "tabs", "all"] then
      (clicks ++ page.tabsResult, trace ++ ["tabs"])
    else (clicks, trace)
  let (clicks, trace) :=
    if strategy ∈ ["auto", "load_more", "all"] then
      (clicks ++ page.loadMoreResult.1, trace ++ ["load_more"])
    else (clicks, trace)
  let (scrolls, pages, trace) :=
    if strategy ∈ ["auto", "scroll", "all"] then
      let (sc, spages) := page.scrollResult 0
      (sc, addNewPages pages spages, trace ++ ["scroll"])
    else (scrolls, pages, trace)
  let (pages, html_contents, trace) :=
    if strategy ∈ ["auto", "pagination", "all"] then
      let (ppages, _, phtmls) := page.paginationResult 0
      (addNewPages pages ppages, html_contents ++ phtmls, trace ++ ["pagination"])
    else (pages, html_contents, trace)
  if strategy = "auto" ∧ clicks = [] ∧ scrolls = 0 ∧ pages.length = 1 then
    let (sc, spages) := page.scrollResult 1
    let scrolls := sc
    let pages := addNewPages pages spages
    let trace := trace ++ ["scroll"]
    if scrolls = 0 then
      let (ppages, _, phtmls) := page.paginationResult 1
      ({ clicks := clicks, scrolls := scrolls,
         pages := addNewPages pages ppages,
         html_contents := html_contents ++ phtmls }, trace ++ ["pagination"])
    else
      ({ clicks := clicks, scrolls := scrolls, pages := pages,
         html_contents := html_contents }, trace)
  else
    ({ clicks := clicks, scrolls := scrolls, pages := pages,
       html_contents := html_contents }, trace)

/-! ## Concrete fixtures used by witnesses and counterexamples -/

/-- A trivial stand-in for `urllib.parse.urljoin` in concrete runs: the
parser theorems quantify over the resolver, so witnesses may fix any. -/
def idResolve : String → String → String := fun _ href => href

/-- A 5001-character markup string (exceeds `MAX_RAW_HTML_LENGTH`). -/
def longHtml : String := String.mk (List.replicate 5001 'a')

/-- A page with one selector matching four clickable tabs. -/
def c7page : TabPage :=
  { queryAll := fun sel =>
      if sel = "[role='tab']" then
        [⟨"One", true⟩, ⟨"Two", true⟩, ⟨"Three", true⟩, ⟨"Four", true⟩]
      else []
    queryFails := fun _ => false }

/-- A load-more page on which every selector probe clicks and then raises
while reading the element count: each round records one click per
selector. -/
def c7lmWorst : LMPage :=
  { resp := fun _ _ => .clickedThenRaised "More" }

/-- A load-more page with no button at all. -/
def c7lmQuiet : LMPage :=
  { resp := fun _ _ => .missing }

/-- A pagination page (states are hop numbers) on which every selector
click navigates to a fresh URL and every markup capture raises: each
round records one hop per selector. -/
def c7pagWorst : PagPage Nat :=
  { url := fun n => s!"http://e.com/{n}"
    content := fun _ => ""
    contentFails := fun _ => true
    resp := fun n _ => .clicked (n + 1) }

/-- A pagination page with no next-control and reliable markup capture. -/
def c7pagQuiet : PagPage Nat :=
  { url := fun n => s!"http://e.com/{n}"
    content := fun _ => "<html></html>"
    contentFails := fun _ => false
    resp := fun _ _ => .missing }

/-- Sub-strategy outcomes for a page whose tabs sub-strategy clicks one
tab while scroll and pagination also have observable effects. -/
def c3page : InteractionOracles :=
  { url0 := "http://e.com/"
    tabsResult := ["Tab clicked: [role='tab'] - Overview"]
    loadMoreResult := ([], 0)
    scrollResult := fun _ => (2, [])
    paginationResult := fun _ => (["http://e.com/"], 1, ["<html></html>"]) }

/-- A minimal document whose only content is one paragraph in `body`. -/
def c2doc : Node :=
  .elem "[document]" []
    [.elem "html" [] [.elem "body" [] [.elem "p" [] [.text "Hi"]]]]

/-- The single section `parse_html` produces for `c2doc`. -/
def c2sec : Section := (parse_html idResolve c2doc "http://e.com").head!

/-- A document with a `section` landmark nested inside an `aside`
landmark. -/
def c9doc : Node :=
  .elem "[document]" []
    [.elem "html" [] [.elem "body" []
      [.elem "aside" []
        [.elem "section" [] [.elem "p" [] [.text "Hello world"]]]]]]

/-! ## Shared lemmas -/

theorem isEmptyContent_eq_false {c : Content} (h : isEmptyContent c = false) :
    c.text ≠ "" ∨ c.headings ≠ [] ∨ c.links ≠ [] ∨ c.images ≠ [] ∨
      c.tables ≠ [] := by
  by_contra hc
  push_neg at hc
  obtain ⟨h1, h2, h3, h4, h5⟩ := hc
  simp [isEmptyContent, h1, h2, h3, h4, h5] at h

/-! ## Claim theorems -/

/-- C8: `truncate_html` leaves input of length at most
`MAX_RAW_HTML_LENGTH` unchanged with the truncation flag `False`, and
truncates longer input to its first `MAX_RAW_HTML_LENGTH` characters
(plus an ellipsis marker) with the flag `True`. -/
theorem spec_c8 (s : String) :
    (s.length ≤ MAX_RAW_HTML_LENGTH →
      truncate_html s MAX_RAW_HTML_LENGTH = (s, false)) ∧
    (s.length > MAX_RAW_HTML_LENGTH →
      truncate_html s MAX_RAW_HTML_LENGTH
        = (pyTake s MAX_RAW_HTML_LENGTH ++ "...", true)) := by
  constructor
  · intro h
    unfold truncate_html
    rw [if_pos h]
  · intro h
    unfold truncate_html
    rw [if_neg (by omega)]

/-- Witness for C8 at concrete inputs on both sides of the limit. -/
theorem spec_c8_witness :
    ("abc".length ≤ MAX_RAW_HTML_LENGTH ∧
      truncate_html "abc" MAX_RAW_HTML_LENGTH = ("abc", false)) ∧
    (longHtml.length > MAX_RAW_HTML_LENGTH ∧
      truncate_html longHtml MAX_RAW_HTML_LENGTH
        = (pyTake longHtml MAX_RAW_HTML_LENGTH ++ "...", true)) :=
  have hlen : longHtml.length = 5001 := by
    show (String.mk (List.replicate 5001 'a')).length = 5001
    rw [show (String.mk (List.replicate 5001 'a')).length
          = (List.replicate 5001 'a').length from rfl,
        List.length_replicate]
  ⟨⟨by decide, (spec_c8 "abc").1 (by decide)⟩,
   ⟨by rw [hlen]; decide, (spec_c8 longHtml).2 (by rw [hlen]; decide)⟩⟩

/-- C4: `check_robots_txt` answers "blocked" exactly when the robots.txt
fetch returned status 200 and the parsed rules disallow the URL for the
user agent; every other outcome (404, non-200 status, timeout, fetch or
URL-parsing error) answers "allowed" (fail-open). -/
theorem spec_c4 (o : RobotsFetchOutcome) :
    (check_robots_txt o).1 = false ↔ o = .response 200 false := by
  cases o with
  | response s c =>
    by_cases h404 : s = 404
    · subst h404
      simp [check_robots_txt]
    · by_cases h200 : s = 200
      · subst h200
        cases c <;> simp [check_robots_txt]
      · simp [check_robots_txt, h404, h200]
  | timeout => simp [check_robots_txt]
  | fetchError m => simp [check_robots_txt]
  | urlError m => simp [check_robots_txt]

/-- Witness for C4: a 200 response with a matching disallow rule is
blocked, a timeout is allowed. -/
theorem spec_c4_witness :
    (check_robots_txt (.response 200 false)).1 = false ∧
      (check_robots_txt .timeout).1 = true :=
  ⟨(spec_c4 (.response 200 false)).mpr rfl, by decide⟩

/-- C6: `scrape_static` returns no result with the render-required flag
`True` on a client timeout, and no result with the flag `False` on an
HTTP error status or any other transport error. -/
theorem spec_c6 (needsJs : String → Bool)
    (parsePhase : String → String → Except String (Meta × List Section))
    (now : String) (status : Nat) (reason msg : String) :
    scrape_static .timeout needsJs parsePhase now = (none, true) ∧
    scrape_static (.httpStatusError status reason) needsJs parsePhase now
      = (none, false) ∧
    scrape_static (.transportError msg) needsJs parsePhase now
      = (none, false) :=
  ⟨rfl, rfl, rfl⟩

/-- C10: when the static fetch succeeds but the classifier judges
rendering required, `scrape_static` discards the fetched markup
(returning no result with the render flag set), so if the subsequent
dynamic rendering fails outright, `scrape_url` returns an error result
with empty sections and the fallback error — the static markup is never
parsed into a partial result. -/
theorem spec_c10 (html finalUrl url strat now : String)
    (needsJs : String → Bool)
    (parsePhase : String → String → Except String (Meta × List Section))
    (robots : RobotsFetchOutcome)
    (hjs : needsJs html = true)
    (hval : (validate_url url).1 = true)
    (hrob : (check_robots_txt robots).1 = true) :
    scrape_static (.success html finalUrl) needsJs parsePhase now = (none, true) ∧
    scrape_url url false strat robots
        (.ok (scrape_static (.success html finalUrl) needsJs parsePhase now))
        (.ok none) now
      = error_result url now [⟨fallbackMsg, "fallback"⟩] ∧
    (scrape_url url false strat robots
        (.ok (scrape_static (.success html finalUrl) needsJs parsePhase now))
        (.ok none) now).sections = [] := by
  have hstat : scrape_static (.success html finalUrl) needsJs parsePhase now
      = (none, true) := by
    simp [scrape_static, hjs]
  refine ⟨hstat, ?_, ?_⟩
  · simp [scrape_url, hval, hrob, hstat, scrape_url_try]
  · simp [scrape_url, hval, hrob, hstat, scrape_url_try, error_result]

/-- Witness for C10 at a concrete page judged to need rendering. -/
theorem spec_c10_witness :
    (scrape_url "http://example.com" false "auto" (.response 404 true)
        (.ok (scrape_static (.success "<div id=x></div>" "http://example.com")
          (fun _ => true) (fun _ _ => .error "unused") "t"))
        (.ok none) "t").sections = [] :=
  (spec_c10 "<div id=x></div>" "http://example.com" "http://example.com"
    "auto" "t" (fun _ => true) (fun _ _ => .error "unused") (.response 404 true)
    rfl (by decide) (by decide)).2.2

/-- C1: `scrape_url` always returns a `ScrapeResult` (the embedding is a
total function) and never propagates an exception: whenever the fallback
ladder (the `try:` body, `scrape_url_try`) raises, the orchestrator
converts it into a result carrying an orchestration-phase `ScrapeError`,
for every URL and every combination of `enable_interactions` and
`interaction_strategy`. -/
theorem spec_c1 (url : String) (enable_interactions : Bool) (strat now : String)
    (robots : RobotsFetchOutcome)
    (stat : Except String (Option ScrapeResult × Bool))
    (dyn : Except String (Option ScrapeResult))
    (e : String) (accErrs : List ScrapeError)
    (hval : (validate_url url).1 = true)
    (hrob : (check_robots_txt robots).1 = true)
    (htry : scrape_url_try url enable_interactions stat dyn now
      = .error (e, accErrs)) :
    scrape_url url enable_interactions strat robots stat dyn now
      = error_result url now
          (accErrs ++ [⟨s!"Unexpected error during scraping: {e}", "orchestration"⟩])
    ∧ ∃ er, er ∈ (scrape_url url enable_interactions strat robots stat dyn now).errors
        ∧ er.phase = "orchestration" := by
  have h1 : scrape_url url enable_interactions strat robots stat dyn now
      = error_result url now
          (accErrs ++ [⟨s!"Unexpected error during scraping: {e}", "orchestration"⟩]) := by
    simp [scrape_url, hval, hrob, htry]
  refine ⟨h1, ⟨⟨s!"Unexpected error during scraping: {e}", "orchestration"⟩, ?_, rfl⟩⟩
  rw [h1]
  simp [error_result]

/-- Witness for C1: a dynamic-scrape exception with interactions enabled
is converted into an orchestration error. -/
theorem spec_c1_witness :
    ∃ er, er ∈ (scrape_url "http://example.com" true "auto" .timeout
        (.ok (none, false)) (.error "boom") "t").errors
      ∧ er.phase = "orchestration" :=
  (spec_c1 "http://example.com" true "auto" "t" .timeout
    (.ok (none, false)) (.error "boom") "boom" []
    (by decide) (by decide) rfl).2

/-- A fold appending at most one element per step grows the accumulator
by at most the list length. -/
theorem foldl_grow_le {α : Type} (g : List String → α → List String)
    (h : ∀ acc a, (g acc a).length ≤ acc.length + 1) :
    ∀ (l : List α) (init : List String),
      (l.foldl g init).length ≤ init.length + l.length := by
  intro l
  induction l with
  | nil => intro init; simp
  | cons a l ih =>
    intro init
    calc (List.foldl g init (a :: l)).length
        = (List.foldl g (g init a) l).length := rfl
      _ ≤ (g init a).length + l.length := ih (g init a)
      _ ≤ init.length + 1 + l.length := by
          exact Nat.add_le_add_right (h init a) l.length
      _ = init.length + (a :: l).length := by simp [List.length_cons]; omega

/-- The tab-click loop clicks at most `MAX_TABS_TO_CLICK` tabs, whatever
the selector list. -/
theorem try_click_tabs_loop_length_le (page : TabPage) (sels : List String) :
    (try_click_tabs_loop page sels).length ≤ MAX_TABS_TO_CLICK := by
  induction sels with
  | nil => simp [try_click_tabs_loop]
  | cons sel rest ih =>
    rw [try_click_tabs_loop]
    by_cases hq : page.queryFails sel
    · simpa [hq] using ih
    · simp only [hq, Bool.false_eq_true, if_false]
      by_cases he : (page.queryAll sel).isEmpty
      · simpa [he] using ih
      · simp only [he, Bool.false_eq_true, if_false]
        set clicks := ((page.queryAll sel).take MAX_TABS_TO_CLICK).foldl
          (fun acc tab =>
            if tab.clickOk then
              let text := pyTake (pyStrip tab.innerTextVal) MAX_TEXT_PREVIEW_LENGTH
              acc ++ [s!"Tab clicked: {sel} - {text}"]
            else acc) [] with hclicks
        by_cases hc : clicks.isEmpty
        · simpa [hc] using ih
        · simp only [hc, Bool.false_eq_true, if_false]
          have hle : clicks.length ≤ 0 + ((page.queryAll sel).take MAX_TABS_TO_CLICK).length := by
            rw [hclicks]
            refine foldl_grow_le _ ?_ _ []
            intro acc a
            by_cases h : a.clickOk <;> simp [h]
          calc clicks.length
              ≤ 0 + ((page.queryAll sel).take MAX_TABS_TO_CLICK).length := hle
            _ ≤ MAX_TABS_TO_CLICK := by
                simp [List.length_take_le MAX_TABS_TO_CLICK (page.queryAll sel)]

/-- One load-more selector scan adds at most one click per selector. -/
theorem lmScan_count_le (page : LMPage) (round : Nat) :
    ∀ (sels : List String) (st : LMScanState),
      (lmScan page round sels st).count ≤ st.count + sels.length := by
  intro sels
  induction sels with
  | nil => intro st; simp [lmScan]
  | cons sel rest ih =>
    intro st
    rw [lmScan]
    cases hresp : page.resp round sel with
    | missing =>
      refine (ih st).trans ?_
      rw [List.length_cons]; omega
    | raised =>
      refine (ih st).trans ?_
      rw [List.length_cons]; omega
    | clickedThenRaised text =>
      refine (ih _).trans ?_
      rw [List.length_cons]
      show st.count + 1 + rest.length ≤ st.count + (rest.length + 1)
      omega
    | clicked text countBefore countAfter =>
      dsimp only
      split
      · rw [List.length_cons]
        show st.count + 1 ≤ st.count + (rest.length + 1)
        omega
      · rw [List.length_cons]
        show st.count + 1 ≤ st.count + (rest.length + 1)
        omega

/-- Without the raise-after-recorded-click outcome, one load-more round
adds at most one click. -/
theorem lmScan_count_add_one (page : LMPage) (round : Nat)
    (hno : ∀ sel text, page.resp round sel ≠ LMResp.clickedThenRaised text) :
    ∀ (sels : List String) (st : LMScanState),
      (lmScan page round sels st).count ≤ st.count + 1 := by
  intro sels
  induction sels with
  | nil => intro st; simp [lmScan]
  | cons sel rest ih =>
    intro st
    rw [lmScan]
    cases hresp : page.resp round sel with
    | missing => exact ih st
    | raised => exact ih st
    | clickedThenRaised text => exact absurd hresp (hno sel text)
    | clicked text countBefore countAfter =>
      dsimp only
      split
      · exact le_rfl
      · exact le_rfl

/-- The load-more loop adds at most `remaining * 5` further clicks (5 is
the number of load-more selector patterns). -/
theorem lmLoop_count_le (page : LMPage) :
    ∀ (remaining round : Nat) (st : LMScanState),
      (lmLoop page round remaining st).2
        ≤ st.count + remaining * LOAD_MORE_SELECTORS.length := by
  have hL : LOAD_MORE_SELECTORS.length = 5 := rfl
  intro remaining
  induction remaining with
  | zero => intro round st; simp [lmLoop]
  | succ r ih =>
    intro round st
    rw [lmLoop]
    have hscan := lmScan_count_le page round LOAD_MORE_SELECTORS
      { st with clicked := false, earlyReturn := false }
    have hcnt : ({ st with clicked := false, earlyReturn := false } : LMScanState).count
        = st.count := rfl
    rw [hcnt] at hscan
    rw [hL] at hscan ⊢
    split
    · omega
    · split
      · omega
      · have := ih (round + 1) (lmScan page round LOAD_MORE_SELECTORS
          { st with clicked := false, earlyReturn := false })
        rw [hL] at this
        omega

/-- Without the raise-after-recorded-click outcome, the load-more loop
adds at most `remaining` further clicks. -/
theorem lmLoop_count_le_tight (page : LMPage)
    (hno : ∀ r sel text, page.resp r sel ≠ LMResp.clickedThenRaised text) :
    ∀ (remaining round : Nat) (st : LMScanState),
      (lmLoop page round remaining st).2 ≤ st.count + remaining := by
  intro remaining
  induction remaining with
  | zero => intro round st; simp [lmLoop]
  | succ r ih =>
    intro round st
    rw [lmLoop]
    have hscan := lmScan_count_add_one page round (hno round) LOAD_MORE_SELECTORS
      { st with clicked := false, earlyReturn := false }
    have hcnt : ({ st with clicked := false, earlyReturn := false } : LMScanState).count
        = st.count := rfl
    rw [hcnt] at hscan
    split
    · omega
    · split
      · omega
      · have := ih (round + 1) (lmScan page round LOAD_MORE_SELECTORS
          { st with clicked := false, earlyReturn := false })
        omega

/-- The infinite-scroll loop performs at most `remaining` further
scrolls. -/
theorem scrollLoop_count_le (page : ScrollPage) :
    ∀ (remaining round prev count : Nat) (visited : List String),
      (scrollLoop page round remaining prev count visited).1 ≤ count + remaining := by
  intro remaining
  induction remaining with
  | zero => intro round prev count visited; simp [scrollLoop]
  | succ r ih =>
    intro round prev count visited
    rw [scrollLoop]
    by_cases hf : page.fails round
    · simp [hf]
    · simp only [hf, Bool.false_eq_true, if_false]
      by_cases hh : prev > 0 && page.height round ≤ prev
      · simp [hh]
      · simp only [hh, Bool.false_eq_true, if_false]
        by_cases hv : visited.contains (page.url round)
        · simp only [hv, if_true]
          calc (scrollLoop page (round + 1) r _ (count + 1) visited).1
              ≤ count + 1 + r := ih (round + 1) _ (count + 1) visited
            _ = count + (r + 1) := by omega
        · simp only [hv, Bool.false_eq_true, if_false]
          calc (scrollLoop page (round + 1) r _ (count + 1) _).1
              ≤ count + 1 + r := ih (round + 1) _ (count + 1) _
            _ = count + (r + 1) := by omega

/-- One pagination selector scan records at most one hop per selector. -/
theorem pagScan_count_le {σ : Type} (page : PagPage σ) :
    ∀ (sels : List String) (st : PagState σ),
      (pagScan page sels st).count ≤ st.count + sels.length := by
  intro sels
  induction sels with
  | nil => intro st; simp [pagScan]
  | cons sel rest ih =>
    intro st
    rw [pagScan]
    cases hresp : page.resp st.s sel with
    | missing =>
      refine (ih st).trans ?_
      rw [List.length_cons]; omega
    | raised =>
      refine (ih st).trans ?_
      rw [List.length_cons]; omega
    | clicked s2 =>
      dsimp only
      split
      · split
        · refine (ih _).trans ?_
          rw [List.length_cons]
          show st.count + 1 + rest.length ≤ st.count + (rest.length + 1)
          omega
        · rw [List.length_cons]
          show st.count + 1 ≤ st.count + (rest.length + 1)
          omega
      · refine (ih _).trans ?_
        rw [List.length_cons]
        show st.count + rest.length ≤ st.count + (rest.length + 1)
        omega

/-- With reliable markup capture, one pagination round records at most
one hop. -/
theorem pagScan_count_add_one {σ : Type} (page : PagPage σ)
    (hcf : ∀ s, page.contentFails s = false) :
    ∀ (sels : List String) (st : PagState σ),
      (pagScan page sels st).count ≤ st.count + 1 := by
  intro sels
  induction sels with
  | nil => intro st; simp [pagScan]
  | cons sel rest ih =>
    intro st
    rw [pagScan]
    cases hresp : page.resp st.s sel with
    | missing => exact ih st
    | raised => exact ih st
    | clicked s2 =>
      dsimp only
      split
      · rw [hcf s2]
        exact le_rfl
      · exact ih _

/-- The pagination loop records at most `remaining * 5` further hops (5
is the number of pagination selector patterns). -/
theorem pagLoop_count_le {σ : Type} (page : PagPage σ) :
    ∀ (remaining : Nat) (st : PagState σ),
      (pagLoop page remaining st).2.1
        ≤ st.count + remaining * PAGINATION_SELECTORS.length := by
  have hL : PAGINATION_SELECTORS.length = 5 := rfl
  intro remaining
  induction remaining with
  | zero => intro st; simp [pagLoop]
  | succ r ih =>
    intro st
    rw [pagLoop]
    have hscan : (pagScan page PAGINATION_SELECTORS
          { st with clicked := false }).count ≤ st.count + 5 :=
      pagScan_count_le page PAGINATION_SELECTORS { st with clicked := false }
    rw [hL]
    split
    · have hrec : (pagLoop page r (pagScan page PAGINATION_SELECTORS
            { st with clicked := false })).2.1
          ≤ (pagScan page PAGINATION_SELECTORS
            { st with clicked := false }).count + r * 5 := by
        have := ih (pagScan page PAGINATION_SELECTORS { st with clicked := false })
        rw [hL] at this
        exact this
      omega
    · show (pagScan page PAGINATION_SELECTORS
          { st with clicked := false }).count ≤ st.count + (r + 1) * 5
      omega

/-- With reliable markup capture, the pagination loop records at most
`remaining` further hops. -/
theorem pagLoop_count_le_tight {σ : Type} (page : PagPage σ)
    (hcf : ∀ s, page.contentFails s = false) :
    ∀ (remaining : Nat) (st : PagState σ),
      (pagLoop page remaining st).2.1 ≤ st.count + remaining := by
  intro remaining
  induction remaining with
  | zero => intro st; simp [pagLoop]
  | succ r ih =>
    intro st
    rw [pagLoop]
    have hscan : (pagScan page PAGINATION_SELECTORS
          { st with clicked := false }).count ≤ st.count + 1 :=
      pagScan_count_add_one page hcf PAGINATION_SELECTORS { st with clicked := false }
    split
    · have hrec := ih (pagScan page PAGINATION_SELECTORS { st with clicked := false })
      omega
    · show (pagScan page PAGINATION_SELECTORS
          { st with clicked := false }).count ≤ st.count + (r + 1)
      omega

/-- C7 counterexample: the tab-click loop is not bounded by
`MAX_INTERACTION_DEPTH`: on a page where one selector matches four
clickable tabs, `try_click_tabs` performs four clicks, exceeding the
shared constant (3).  The tab loop's own bound is the separate
`MAX_TABS_TO_CLICK` (5). -/
theorem spec_c7_counterexample :
    (try_click_tabs c7page).length = 4 ∧ MAX_INTERACTION_DEPTH = 3 ∧
      4 > MAX_INTERACTION_DEPTH ∧ MAX_TABS_TO_CLICK = 5 := by
  refine ⟨?_, by decide, by decide, by decide⟩
  decide

/-- C7 (amended): every interaction loop terminates with a bounded
iteration count, but no single shared constant bounds them all.  The
infinite-scroll loop performs at most `MAX_INTERACTION_DEPTH` scrolls.
The load-more and pagination loops run at most `MAX_INTERACTION_DEPTH`
(resp. `MAX_INTERACTION_DEPTH - 1` further) rounds, but each round can
record one click (resp. hop) per selector pattern when a Playwright
error strikes between a recorded click and its follow-up read, so their
counts are bounded by `MAX_INTERACTION_DEPTH * 5 = 15` clicks and
`1 + (MAX_INTERACTION_DEPTH - 1) * 5 = 11` pages — these larger bounds
are reachable — and collapse to `MAX_INTERACTION_DEPTH` when no such
mid-action error occurs.  The tab-click loop is bounded by the separate
`MAX_TABS_TO_CLICK` constant per selector pattern. -/
theorem spec_c7_amended {σ : Type} (tp : TabPage) (lp : LMPage)
    (sp : ScrollPage) (pp : PagPage σ) (s0 : σ) :
    (try_click_tabs tp).length ≤ MAX_TABS_TO_CLICK ∧
    (try_click_load_more lp MAX_INTERACTION_DEPTH).2
        ≤ MAX_INTERACTION_DEPTH * LOAD_MORE_SELECTORS.length ∧
    ((∀ r sel text, lp.resp r sel ≠ LMResp.clickedThenRaised text) →
      (try_click_load_more lp MAX_INTERACTION_DEPTH).2 ≤ MAX_INTERACTION_DEPTH) ∧
    (try_infinite_scroll sp MAX_INTERACTION_DEPTH).1 ≤ MAX_INTERACTION_DEPTH ∧
    (try_pagination pp s0 MAX_INTERACTION_DEPTH).2.1
        ≤ 1 + (MAX_INTERACTION_DEPTH - 1) * PAGINATION_SELECTORS.length ∧
    ((∀ s, pp.contentFails s = false) →
      (try_pagination pp s0 MAX_INTERACTION_DEPTH).2.1 ≤ MAX_INTERACTION_DEPTH) := by
  refine ⟨try_click_tabs_loop_length_le tp TAB_SELECTORS, ?_, ?_, ?_, ?_, ?_⟩
  · simpa using lmLoop_count_le lp MAX_INTERACTION_DEPTH 0
      { clicks := [], count := 0, clicked := false, earlyReturn := false }
  · intro hno
    simpa using lmLoop_count_le_tight lp hno MAX_INTERACTION_DEPTH 0
      { clicks := [], count := 0, clicked := false, earlyReturn := false }
  · simpa using scrollLoop_count_le sp MAX_INTERACTION_DEPTH 0 0 0 []
  · unfold try_pagination
    have h := pagLoop_count_le pp (MAX_INTERACTION_DEPTH - 1)
      { s := s0, visited := [pp.url s0], count := 1,
        htmls := if pp.contentFails s0 then [] else [pp.content s0],
        clicked := false }
    exact h
  · intro hcf
    unfold try_pagination
    have h : (pagLoop pp (MAX_INTERACTION_DEPTH - 1)
          { s := s0, visited := [pp.url s0], count := 1,
            htmls := if pp.contentFails s0 then [] else [pp.content s0],
            clicked := false }).2.1 ≤ 1 + (MAX_INTERACTION_DEPTH - 1) :=
      pagLoop_count_le_tight pp hcf (MAX_INTERACTION_DEPTH - 1)
        { s := s0, visited := [pp.url s0], count := 1,
          htmls := if pp.contentFails s0 then [] else [pp.content s0],
          clicked := false }
    exact h.trans (by decide)

/-- Witness for C7 (amended): the error-free bounds at quiet pages, and
the larger worst-case bounds attained at pages whose every follow-up
read raises after a recorded click or hop. -/
theorem spec_c7_amended_witness :
    (try_click_load_more c7lmQuiet MAX_INTERACTION_DEPTH).2
        ≤ MAX_INTERACTION_DEPTH ∧
    (try_pagination c7pagQuiet 0 MAX_INTERACTION_DEPTH).2.1
        ≤ MAX_INTERACTION_DEPTH ∧
    (try_click_load_more c7lmWorst MAX_INTERACTION_DEPTH).2 = 15 ∧
    (try_pagination c7pagWorst 0 MAX_INTERACTION_DEPTH).2.1 = 11 :=
  have sp : ScrollPage :=
    { height := fun _ => 0, url := fun _ => "u", fails := fun _ => true }
  ⟨(spec_c7_amended c7page c7lmQuiet sp c7pagQuiet 0).2.2.1
      (by intro r sel text h; simp [c7lmQuiet] at h),
   (spec_c7_amended c7page c7lmQuiet sp c7pagQuiet 0).2.2.2.2.2
      (by intro s; rfl),
   by decide, by decide⟩

/-- C3: the code bug at a concrete run.  With strategy `auto` on a page
whose tab sub-strategy clicks a tab, the source still runs the scroll and
pagination sub-strategies (their dispatch conditions
`strategy in ["auto", "scroll", "all"]` and
`strategy in ["auto", "pagination", "all"]` include `"auto"`): the
invocation trace is tabs, load-more, scroll, pagination, and the scroll
oracle's two scroll actions land in the result, contradicting the claim
(and the source's own comment) that scroll and pagination run only when
tabs and load-more produced nothing. -/
theorem spec_c3_failing :
    (handle_interactions c3page "auto").2
        = ["tabs", "load_more", "scroll", "pagination"] ∧
    (handle_interactions c3page "auto").1.clicks
        = ["Tab clicked: [role='tab'] - Overview"] ∧
    (handle_interactions c3page "auto").1.scrolls = 2 := by
  refine ⟨?_, ?_, ?_⟩ <;> decide

/-- Every section produced by the landmark loop passed the non-empty
content check. -/
theorem mem_landmarkLoop {resolve : String → String → String}
    {base_url : String} :
    ∀ {counter : Nat} {items : List (Node × List String)} {s : Section},
      s ∈ landmarkLoop resolve base_url counter items →
      isEmptyContent s.content = false := by
  intro counter items
  induction items generalizing counter with
  | nil =>
    intro s h
    simp [landmarkLoop] at h
  | cons p rest ih =>
    intro s h
    obtain ⟨element, ancs⟩ := p
    simp only [landmarkLoop] at h
    split at h
    · exact ih h
    · split at h
      · exact ih h
      · rcases List.mem_cons.mp h with rfl | h2
        · rename_i hne
          simp only [Bool.not_eq_true] at hne
          exact hne
        · exact ih h2

/-- Every section produced by `group_by_landmarks` passed the non-empty
content check. -/
theorem mem_group_by_landmarks {resolve : String → String → String}
    {soup : Node} {base_url : String} {s : Section}
    (h : s ∈ group_by_landmarks resolve soup base_url) :
    isEmptyContent s.content = false :=
  mem_landmarkLoop h

/-- Every section produced by the heading loop passed the non-empty
content check. -/
theorem mem_headingLoop {resolve : String → String → String}
    {base_url : String} :
    ∀ {counter : Nat} {items : List (Node × List Node)} {s : Section},
      s ∈ headingLoop resolve base_url counter items →
      isEmptyContent s.content = false := by
  intro counter items
  induction items generalizing counter with
  | nil =>
    intro s h
    simp [headingLoop] at h
  | cons p rest ih =>
    intro s h
    obtain ⟨heading, content_elements⟩ := p
    simp only [headingLoop] at h
    split at h
    · exact ih h
    · rcases List.mem_cons.mp h with rfl | h2
      · rename_i hne
        simp only [Bool.not_eq_true] at hne
        exact hne
      · exact ih h2

/-- Every section produced by `group_by_headings` passed the non-empty
content check. -/
theorem mem_group_by_headings {resolve : String → String → String}
    {soup : Node} {base_url : String} {s : Section}
    (h : s ∈ group_by_headings resolve soup base_url) :
    isEmptyContent s.content = false :=
  mem_headingLoop h

/-- C2: for every document tree and base URL, every `Section` returned by
`parse_html` has at least one non-empty field among its content's text,
headings, links, images and tables: each of the three sectioning tiers
emits a section only after the non-empty content check. -/
theorem spec_c2 (resolve : String → String → String) (html : Node)
    (url : String) (s : Section) (h : s ∈ parse_html resolve html url) :
    s.content.text ≠ "" ∨ s.content.headings ≠ [] ∨ s.content.links ≠ [] ∨
      s.content.images ≠ [] ∨ s.content.tables ≠ [] := by
  apply isEmptyContent_eq_false
  simp only [parse_html] at h
  split at h
  · exact mem_group_by_landmarks h
  · split at h
    · split at h
      · rcases List.mem_cons.mp h with rfl | h2
        · rename_i hne
          simp only [Bool.not_eq_true'] at hne
          exact hne
        · simp at h2
      · simp at h
    · exact mem_group_by_headings h

/-- Witness for C2: the single section parsed from a one-paragraph
document is non-empty. -/
theorem spec_c2_witness :
    c2sec ∈ parse_html idResolve c2doc "http://e.com" ∧
    (c2sec.content.text ≠ "" ∨ c2sec.content.headings ≠ [] ∨
      c2sec.content.links ≠ [] ∨ c2sec.content.images ≠ [] ∨
      c2sec.content.tables ≠ []) :=
  have mem : c2sec ∈ parse_html idResolve c2doc "http://e.com" := by decide
  ⟨mem, spec_c2 idResolve c2doc "http://e.com" c2sec mem⟩

/-- C9: the code bug at a concrete document.  `group_by_landmarks`' nesting
check (`find_parent(["header", "nav", "main", "section", "article",
"footer"])`) omits `aside`, although `aside` is in the landmark list: on a
document whose `section` landmark is nested inside an `aside` landmark,
the nested `section` is emitted as its own `Section` even though it has a
landmark tag (`aside`) as ancestor, contradicting the claim that only
non-nested landmarks are emitted. -/
theorem spec_c9_failing :
    ((soupLandmarks c9doc).map (fun p => (tagOf p.1, p.2)))
        = [("aside", ["body", "html", "[document]"]),
           ("section", ["aside", "body", "html", "[document]"])] ∧
    ((group_by_landmarks idResolve c9doc "http://e.com").map
        (fun s => (s.id, s.type)))
        = [("unknown-0", "unknown"), ("section-1", "section")] := by
  exact ⟨by decide, by decide⟩

end Scraper
